import Mathlib

/-!
Shallow embedding of the `opencem` simulator core (files `clock.py`,
`interfaces.py`, `linear.py`, `dataset.py`, `simulator.py`).  Python floats
are modelled as rationals (arithmetic on the concrete inputs considered here
is exact), Python `None` as `Option`, and raised exceptions as `none` of an
`Option` result.
-/

namespace Opencem

/-- `clock.py`: `Clock` — immutable fixed-point instant.  `ticks` counts
units of `1/RES` seconds. -/
structure Clock where
  ticks : ℤ
  RES : ℤ
deriving DecidableEq, Repr

namespace Clock

/-- `Clock.to_seconds`: `ticks / RES`. -/
def to_seconds (c : Clock) : ℚ := (c.ticks : ℚ) / (c.RES : ℚ)

/-- `Clock.difference_hours`: asserts equal resolutions (modelled as `none`
on mismatch), otherwise `((to.ticks - from.ticks) / to.RES) / 3600`. -/
def difference_hours (a b : Clock) : Option ℚ :=
  if a.RES = b.RES then some ((((b.ticks : ℚ) - (a.ticks : ℚ)) / (b.RES : ℚ)) / (60 * 60))
  else none

/-- `Clock.advance`: same resolution, shifted ticks. -/
def advance (c : Clock) (step_ticks : ℤ) : Clock :=
  { ticks := c.ticks + step_ticks, RES := c.RES }

/-- `Clock.__gt__`: compares raw tick counts only; the resolutions are not
inspected. -/
def gt (a b : Clock) : Bool := a.ticks > b.ticks

end Clock

/-- `interfaces.py`: `BatteryStepMode`. -/
inductive BatteryStepMode where
  | CHARGE
  | DISCHARGE
  | IDLE
deriving DecidableEq, Repr

/-- `interfaces.py`: `BatteryStepInput`. -/
structure BatteryStepInput where
  mode : BatteryStepMode
  current_a : ℚ
deriving DecidableEq, Repr

/-- `interfaces.py`: `BatteryStepResult`. -/
structure BatteryStepResult where
  voltage_v : ℚ
  current_a : ℚ
  soc : ℚ
  discharge_capacity_c : ℚ
  discharge_energy_j : ℚ
deriving DecidableEq, Repr

/-- `interfaces.py`: `PowerSourceStepResult`. -/
structure PowerSourceStepResult where
  voltage_v : ℚ
  current_a : ℚ
  power_w : ℚ
deriving DecidableEq, Repr

/-- `interfaces.py`: `LoadStepResult`. -/
structure LoadStepResult where
  current_a : ℚ
  voltage_v : ℚ
  power_apparent_va : ℚ
  power_active_w : ℚ
deriving DecidableEq, Repr

/-- `interfaces.py`: `GridStepInput`. -/
structure GridStepInput where
  power_demand_apparent_va : ℚ
  power_demand_active_w : ℚ
deriving DecidableEq, Repr

/-- `interfaces.py`: `GridStepResult`. -/
structure GridStepResult where
  power_delivered_apparent_va : ℚ
  power_delivered_active_w : ℚ
deriving DecidableEq, Repr

/-- `interfaces.py`: `InverterStepInput`. -/
structure InverterStepInput where
  last_battery_result : BatteryStepResult
  last_power_source_step : PowerSourceStepResult
  last_load_step : LoadStepResult
deriving DecidableEq, Repr

/-- `interfaces.py`: `InverterStepResult`. -/
structure InverterStepResult where
  next_battery_input : BatteryStepInput
  next_grid_input : GridStepInput
  generator_power_drawn_w : ℚ
deriving DecidableEq, Repr

/-- `linear.py`: mutable state of `BatteryLinear` (constructor fields). -/
structure BatteryLinear where
  clock : Clock
  energy_j : ℚ
  nominal_voltage_v : ℚ
  capacity_j : ℚ
  charge_efficiency : ℚ
  discharge_efficiency : ℚ
deriving DecidableEq, Repr

namespace BatteryLinear

/-- `BatteryLinear.soc`. -/
def soc (b : BatteryLinear) : ℚ := b.energy_j / b.capacity_j

/-- `BatteryLinear.step`, returning the updated object state and the
`BatteryStepResult`.  The internal `assert` of `difference_hours` always
succeeds here because `advance` preserves `RES`; `getD 0` discharges the
`Option`. -/
def step (b : BatteryLinear) (step_ticks : ℤ) (battery_input : Option BatteryStepInput) :
    BatteryLinear × BatteryStepResult :=
  let next_clock := b.clock.advance step_ticks
  let hours_passed := (Clock.difference_hours b.clock next_clock).getD 0
  match battery_input with
  | none =>
      ({ b with clock := next_clock },
       { voltage_v := b.nominal_voltage_v
         current_a := 0
         soc := b.soc
         discharge_capacity_c := 0
         discharge_energy_j := 0 })
  | some bi =>
      let discharge_energy_j :=
        if bi.mode = BatteryStepMode.DISCHARGE then
          let d := b.nominal_voltage_v * bi.current_a * hours_passed * 3600 / b.discharge_efficiency
          if d ≤ b.energy_j then d else b.energy_j
        else
          let d := b.nominal_voltage_v * bi.current_a * hours_passed * 3600 * b.charge_efficiency * (-1)
          if b.energy_j - d ≤ b.capacity_j then d else b.capacity_j - b.energy_j
      let new_energy := b.energy_j - discharge_energy_j
      let b' := { b with energy_j := new_energy, clock := next_clock }
      (b',
       { voltage_v := b.nominal_voltage_v
         current_a := bi.current_a
         soc := b'.soc
         discharge_capacity_c := discharge_energy_j / b.nominal_voltage_v
         discharge_energy_j := discharge_energy_j })

end BatteryLinear

/-- `linear.py`: `PricedGridStepResult` (adds `cost`, `violation`). -/
structure PricedGridStepResult where
  power_delivered_apparent_va : ℚ
  power_delivered_active_w : ℚ
  cost : ℚ
  violation : Bool
deriving DecidableEq, Repr

/-- `linear.py`: mutable state of `GridPriced`.  `price_schedule` holds
`(time in seconds since epoch, price per kWh)` pairs. -/
structure GridPriced where
  clock : Clock
  price_schedule : List (ℚ × ℚ)
  max_power_apparent_va : ℚ
  max_power_active_w : ℚ
deriving DecidableEq, Repr

namespace GridPriced

/-- `GridPriced.step`: the price is the first entry of the reversed schedule
whose time is `≤ self.clock.to_seconds()` (the pre-advance clock), with
`(0, 0)` as the default of the `next(...)` call. -/
def step (g : GridPriced) (step_ticks : ℤ) (grid_input : Option GridStepInput) :
    GridPriced × PricedGridStepResult :=
  let next_clock := g.clock.advance step_ticks
  let price := ((g.price_schedule.reverse.find? (fun p => p.1 ≤ g.clock.to_seconds)).getD (0, 0)).2
  let hours := (Clock.difference_hours g.clock next_clock).getD 0
  ({ g with clock := next_clock },
   match grid_input with
   | some gi =>
       { power_delivered_apparent_va := gi.power_demand_apparent_va
         power_delivered_active_w := gi.power_demand_active_w
         cost := gi.power_demand_active_w * hours / 1000 * price
         violation := gi.power_demand_active_w > g.max_power_active_w ∨
                      gi.power_demand_apparent_va > g.max_power_apparent_va }
   | none =>
       { power_delivered_apparent_va := 0
         power_delivered_active_w := 0
         cost := 0
         violation := false })

end GridPriced

/-- `linear.py`: configuration/state of `InverterPVFirst`. -/
structure InverterPVFirst where
  clock : Clock
  pv_to_ac_efficiency : ℚ
  battery_to_ac_efficiency : ℚ
  pv_to_battery_efficiency : ℚ
  min_soc : ℚ
  max_soc : ℚ
  own_load_w : ℚ
deriving DecidableEq, Repr

namespace InverterPVFirst

/-- `InverterPVFirst.step`: the 4-way PV-first dispatch decision. -/
def step (v : InverterPVFirst) (step_ticks : ℤ) (inverter_input : InverterStepInput) :
    InverterPVFirst × InverterStepResult :=
  let v' := { v with clock := v.clock.advance step_ticks }
  let pv_w := inverter_input.last_power_source_step.power_w
  let load_w := inverter_input.last_load_step.power_active_w + v.own_load_w
  let soc := inverter_input.last_battery_result.soc
  if pv_w * v.pv_to_ac_efficiency ≥ load_w then
    let pv_remaining_w := pv_w - load_w / v.pv_to_ac_efficiency
    let generator_power_drawn_w := load_w / v.pv_to_ac_efficiency
    let next_grid_input : GridStepInput :=
      { power_demand_apparent_va := 0, power_demand_active_w := 0 }
    if soc ≥ v.max_soc then
      (v', { next_battery_input := { mode := BatteryStepMode.IDLE, current_a := 0 }
             next_grid_input := next_grid_input
             generator_power_drawn_w := generator_power_drawn_w })
    else
      let bat_v := inverter_input.last_battery_result.voltage_v
      let battery_curr_a := pv_remaining_w * v.pv_to_battery_efficiency / bat_v
      (v', { next_battery_input := { mode := BatteryStepMode.CHARGE, current_a := battery_curr_a }
             next_grid_input := next_grid_input
             generator_power_drawn_w := pv_w })
  else
    let load_remaining_w := load_w - pv_w * v.pv_to_ac_efficiency
    if soc > v.min_soc then
      let bat_v := inverter_input.last_battery_result.voltage_v
      let needs_a := load_remaining_w / v.battery_to_ac_efficiency / bat_v
      (v', { next_battery_input := { mode := BatteryStepMode.DISCHARGE, current_a := needs_a }
             next_grid_input := { power_demand_apparent_va := 0, power_demand_active_w := 0 }
             generator_power_drawn_w := pv_w })
    else
      (v', { next_battery_input := { mode := BatteryStepMode.IDLE, current_a := 0 }
             next_grid_input := { power_demand_apparent_va := load_remaining_w
                                  power_demand_active_w := load_remaining_w }
             generator_power_drawn_w := pv_w })

end InverterPVFirst

/-- Python/numpy indexing `l[i]` with an `Int` index: a negative index wraps
around from the end of the list (out-of-range reads, which never occur on the
paths reasoned about below, default to `0`). -/
def pyGet (l : List ℚ) (i : ℤ) : ℚ :=
  if i < 0 then l.getD (l.length + i).toNat 0 else l.getD i.toNat 0

/-- `np.searchsorted(times, ts)` with the default `side='left'`: the first
index whose element is `≥ ts` (the length if none is). -/
def searchsorted (times : List ℚ) (ts : ℚ) : ℕ :=
  times.findIdx (fun t => ts ≤ t)

/-- `dataset.py`: `interpolate_value(arr, ts)`.  The `ValueError` raised when
`ts` lies beyond the last row is modelled as `none`. -/
def interpolate_value (arr : List (ℚ × ℚ)) (ts : ℚ) : Option ℚ :=
  let times := arr.map Prod.fst
  let values := arr.map Prod.snd
  if ts > pyGet times (-1) then none
  else
    let idx : ℤ := searchsorted times ts
    if pyGet times (idx - 1) = ts then some (pyGet values (idx - 1))
    else
      let t0 := pyGet times (idx - 1)
      let t1 := pyGet times idx
      let v0 := pyGet values (idx - 1)
      let v1 := pyGet values idx
      some (v0 + (ts - t0) / (t1 - t0) * (v1 - v0))

/-- `dataset.py`: the `blocks` field computed by both
`BlockSampledDataset.__init__` and `BlockSampledContext.__init__`:
`math.floor(Clock.difference_hours(start_clock, end_clock) / 8)`.  The
`block_hours` constructor argument (default `6.0`) is taken but not used in
this computation. -/
def blockSampledBlocks (start_clock end_clock : Clock) (block_hours : ℚ) : Option ℤ :=
  (Clock.difference_hours start_clock end_clock).map (fun h => ⌊h / 8⌋)

/-- `interfaces.py`: `ContextRecord` — a five-field dataclass, all fields
required (`end` is a Lean keyword, embedded as `end_`). -/
structure ContextRecord where
  recorded_at : Clock
  start : Clock
  end_ : Clock
  source : String
  payload : String
deriving DecidableEq, Repr

/-- `dataset.py`, `load_context`: each fetched row `(recorded, start, end,
value)` is passed to the `ContextRecord` constructor as four positional
arguments.  `ContextRecord` declares five required fields, so the Python call
`ContextRecord(Clock.from_seconds(r[0]), Clock.from_seconds(r[1]),
Clock.from_seconds(r[2]), json.loads(r[3]))` raises `TypeError` (missing the
`payload` argument); the construction therefore never yields a record,
modelled as `none`. -/
def contextRecordOfRow (_row : ℚ × ℚ × ℚ × String) : Option ContextRecord := none

/-- `dataset.py`: `load_context(con, now)`.  The database table is modelled as
a list of rows `(recorded, start, end, value)`; the SQL `WHERE end >=
now.to_seconds()` filter selects the qualifying rows, and the list
comprehension builds one `ContextRecord` per row (raising, modelled `none`,
as soon as one construction fails). -/
def load_context (db : List (ℚ × ℚ × ℚ × String)) (now : Clock) : Option (List ContextRecord) :=
  (db.filter (fun r => r.2.2.1 ≥ now.to_seconds)).mapM contextRecordOfRow

/-- `simulator.py`: `StepAggregates`. -/
structure StepAggregates where
  generated_energy_wh : ℚ
  battery_charge_energy_wh : ℚ
  battery_discharge_energy_wh : ℚ
  load_energy_wh : ℚ
  generator_energy_unused_wh : ℚ
deriving DecidableEq, Repr

/-- `simulator.py`: `CumulativeAggregates`, every field defaulting to `0`. -/
structure CumulativeAggregates where
  total_generated_energy_wh : ℚ := 0
  total_battery_charge_energy_wh : ℚ := 0
  total_battery_discharge_energy_wh : ℚ := 0
  total_load_energy_wh : ℚ := 0
  total_generator_energy_unused_wh : ℚ := 0
  max_grid_power_demand_active_w : ℚ := 0
  max_grid_power_demand_apparent_va : ℚ := 0
  max_battery_voltage_v : ℚ := 0
  max_battery_current_a : ℚ := 0
  max_load_voltage_v : ℚ := 0
  max_load_current_a : ℚ := 0
  max_generator_voltage_v : ℚ := 0
  max_generator_current_a : ℚ := 0
  max_battery_soc : ℚ := 0
  min_battery_soc : ℚ := 0
deriving DecidableEq, Repr

/-- `simulator.py`: `SimulatorStepResult`. -/
structure SimulatorStepResult where
  battery : BatteryStepResult
  power_source : PowerSourceStepResult
  load : LoadStepResult
  grid : GridStepResult
  inverter : InverterStepResult
  step_aggregates : StepAggregates
  cumulative_aggregates : CumulativeAggregates
deriving DecidableEq, Repr

/-- The five polymorphic components handed to `Simulator.__init__`, one step
function per component, each threading its own mutable state. -/
structure SimComponents (B P L G I : Type) where
  batteryStep : B → ℤ → Option BatteryStepInput → B × BatteryStepResult
  powerSourceStep : P → ℤ → P × PowerSourceStepResult
  loadStep : L → ℤ → L × LoadStepResult
  gridStep : G → ℤ → Option GridStepInput → G × GridStepResult
  inverterStep : I → ℤ → InverterStepInput → I × InverterStepResult

/-- `simulator.py`: the `Simulator`'s own mutable state. -/
structure SimState (B P L G I : Type) where
  battery : B
  power_source : P
  load : L
  grid : G
  inverter : I
  next_battery_input : Option BatteryStepInput
  next_grid_input : Option GridStepInput
  clock : Clock
  last_cumulative : CumulativeAggregates

namespace Simulator

/-- `Simulator.__init__`: the pending battery and grid inputs start as
`None`, the cumulative aggregates at their zero defaults. -/
def init {B P L G I : Type} (battery : B) (power_source : P) (load : L) (grid : G)
    (inverter : I) (clock : Clock) : SimState B P L G I :=
  { battery := battery, power_source := power_source, load := load, grid := grid,
    inverter := inverter, next_battery_input := none, next_grid_input := none,
    clock := clock, last_cumulative := {} }

/-- `Simulator.step`: steps battery (with the pending battery input), power
source, load, grid (with the pending grid input), then the inverter on the
fresh results; stores the inverter's outputs as the next pending inputs and
folds the aggregates. -/
def step {B P L G I : Type} (c : SimComponents B P L G I) (s : SimState B P L G I)
    (step_ticks : ℤ) : SimState B P L G I × SimulatorStepResult :=
  let (battery', battery_step) := c.batteryStep s.battery step_ticks s.next_battery_input
  let (power_source', power_source_step) := c.powerSourceStep s.power_source step_ticks
  let (load', load_step) := c.loadStep s.load step_ticks
  let (grid', grid_step) := c.gridStep s.grid step_ticks s.next_grid_input
  let (inverter', inverter_step) :=
    c.inverterStep s.inverter step_ticks
      { last_battery_result := battery_step
        last_power_source_step := power_source_step
        last_load_step := load_step }
  let next_clock := s.clock.advance step_ticks
  let hours_passed := (Clock.difference_hours s.clock next_clock).getD 0
  let step_aggregates : StepAggregates :=
    { generated_energy_wh := power_source_step.power_w * hours_passed
      battery_charge_energy_wh := max 0 (-battery_step.discharge_energy_j / 3600)
      battery_discharge_energy_wh := max 0 (battery_step.discharge_energy_j / 3600)
      load_energy_wh := load_step.power_active_w * hours_passed
      generator_energy_unused_wh :=
        (power_source_step.power_w - inverter_step.generator_power_drawn_w) * hours_passed }
  let cumulative_aggregates : CumulativeAggregates :=
    { total_generated_energy_wh :=
        s.last_cumulative.total_generated_energy_wh + step_aggregates.generated_energy_wh
      total_battery_charge_energy_wh :=
        s.last_cumulative.total_battery_charge_energy_wh + step_aggregates.battery_charge_energy_wh
      total_battery_discharge_energy_wh :=
        s.last_cumulative.total_battery_discharge_energy_wh +
          step_aggregates.battery_discharge_energy_wh
      total_load_energy_wh :=
        s.last_cumulative.total_load_energy_wh + step_aggregates.load_energy_wh
      total_generator_energy_unused_wh :=
        s.last_cumulative.total_generator_energy_unused_wh +
          step_aggregates.generator_energy_unused_wh
      max_grid_power_demand_active_w :=
        max s.last_cumulative.max_grid_power_demand_active_w
          inverter_step.next_grid_input.power_demand_active_w
      max_grid_power_demand_apparent_va :=
        max s.last_cumulative.max_grid_power_demand_apparent_va
          inverter_step.next_grid_input.power_demand_apparent_va
      max_battery_voltage_v := max s.last_cumulative.max_battery_voltage_v battery_step.voltage_v
      max_battery_current_a := max s.last_cumulative.max_battery_current_a battery_step.current_a
      max_load_voltage_v := max s.last_cumulative.max_load_voltage_v load_step.voltage_v
      max_load_current_a := max s.last_cumulative.max_load_current_a load_step.current_a
      max_generator_voltage_v :=
        max s.last_cumulative.max_generator_voltage_v power_source_step.voltage_v
      max_generator_current_a :=
        max s.last_cumulative.max_generator_current_a power_source_step.current_a
      max_battery_soc := max s.last_cumulative.max_battery_soc battery_step.soc
      min_battery_soc := min s.last_cumulative.min_battery_soc battery_step.soc }
  ({ battery := battery', power_source := power_source', load := load', grid := grid',
     inverter := inverter',
     next_battery_input := some inverter_step.next_battery_input,
     next_grid_input := some inverter_step.next_grid_input,
     clock := next_clock, last_cumulative := cumulative_aggregates },
   { battery := battery_step, power_source := power_source_step, load := load_step,
     grid := grid_step, inverter := inverter_step, step_aggregates := step_aggregates,
     cumulative_aggregates := cumulative_aggregates })

/-- The state after `n` calls of `Simulator.step`, with the tick delta of the
`k`-th call given by `ticks k`. -/
def trace {B P L G I : Type} (c : SimComponents B P L G I) (s0 : SimState B P L G I)
    (ticks : ℕ → ℤ) : ℕ → SimState B P L G I
  | 0 => s0
  | n + 1 => (step c (trace c s0 ticks n) (ticks n)).1

end Simulator

/-! ## Theorems -/

/-- C1: `BatteryLinear.step` in CHARGE mode, clamped case.  With capacity 10 J,
stored energy 4 J (SOC 0.4), nominal voltage 1 V, unit efficiencies, a one-hour
step and a charge current of 1 A, the requested charge (3600 J) exceeds the
6 J headroom; the clamp sets `discharge_energy_j = capacity - energy = 6`
(a positive *discharge*), so 6 J are removed instead of 6 J added and the
returned SOC is `-1/5`, outside `[0, 1]`. -/
theorem C1_battery_charge_clamp_bug :
    (BatteryLinear.step ⟨⟨0, 1⟩, 4, 1, 10, 1, 1⟩ 3600
        (some ⟨BatteryStepMode.CHARGE, 1⟩)).2.soc = -1/5 ∧
    (BatteryLinear.step ⟨⟨0, 1⟩, 4, 1, 10, 1, 1⟩ 3600
        (some ⟨BatteryStepMode.CHARGE, 1⟩)).2.discharge_energy_j = 6 ∧
    ¬ (0 ≤ (BatteryLinear.step ⟨⟨0, 1⟩, 4, 1, 10, 1, 1⟩ 3600
        (some ⟨BatteryStepMode.CHARGE, 1⟩)).2.soc) := by
  have hm : ¬ (BatteryStepMode.CHARGE = BatteryStepMode.DISCHARGE) := by decide
  refine ⟨?_, ?_, ?_⟩ <;>
    norm_num [BatteryLinear.step, BatteryLinear.soc, Clock.advance, Clock.difference_hours, hm]

/-- C6: the window count of the block resamplers.  For a start and an end
clock 12 hours apart (43200 s at resolution 1) and `block_hours = 6`, the code
computes `floor(12 / 8) = 1` windows, not `floor(12 / block_hours) = 2`: the
divisor is the literal `8`, the `block_hours` argument is ignored. -/
theorem C6_block_count_uses_eight :
    blockSampledBlocks ⟨0, 1⟩ ⟨43200, 1⟩ 6 = some 1 ∧
    ⌊(12 : ℚ) / 6⌋ = 2 := by
  constructor
  · simp only [blockSampledBlocks, Clock.difference_hours, if_true, Option.map_some',
      Option.some.injEq, reduceIte]
    rw [Int.floor_eq_iff]
    norm_num
  · rw [Int.floor_eq_iff]
    norm_num

/-- C7 counterexample: the ordering comparison does not fail on clocks of
different resolutions.  For `a = Clock(ticks 5, RES 1)` and
`b = Clock(ticks 3, RES 10^9)` the resolutions differ, yet `a > b` is defined
and returns `true` (it compares raw tick counts only). -/
theorem C7_gt_ignores_resolution :
    (Clock.mk 5 1).RES ≠ (Clock.mk 3 1000000000).RES ∧
    Clock.gt (Clock.mk 5 1) (Clock.mk 3 1000000000) = true := by
  decide

/-- C7 amended: `difference_hours` fails (returns `none`) whenever the two
resolutions differ, but the ordering comparison performs no resolution check:
`a > b` is always defined and equals the comparison of the raw tick counts. -/
theorem C7_clock_resolution_checks :
    (∀ a b : Clock, a.RES ≠ b.RES → Clock.difference_hours a b = none) ∧
    (∀ a b : Clock, Clock.gt a b = decide (a.ticks > b.ticks)) := by
  constructor
  · intro a b h
    simp [Clock.difference_hours, h]
  · intro a b
    rfl

/-- C7 witness: the amended statement applied to concrete clocks. -/
theorem C7_witness :
    Clock.difference_hours ⟨0, 1⟩ ⟨0, 2⟩ = none ∧
    Clock.gt ⟨5, 1⟩ ⟨3, 2⟩ = decide ((5 : ℤ) > 3) :=
  ⟨C7_clock_resolution_checks.1 ⟨0, 1⟩ ⟨0, 2⟩ (by decide),
   C7_clock_resolution_checks.2 ⟨5, 1⟩ ⟨3, 2⟩⟩

/-- C8: `load_context` never returns a record.  For a database holding one row
`(1, 2, 3, "p")` whose validity end `3` is at/after the bound `0`, the
`ContextRecord` construction fails (four positional arguments against five
required fields), so the call errors instead of returning the row as a
five-field record; with no qualifying rows it returns the empty list. -/
theorem C8_load_context_arity_bug :
    load_context [(1, 2, 3, "p")] ⟨0, 1⟩ = none ∧
    load_context [] ⟨0, 1⟩ = some [] := by
  constructor
  · have h3 : ((3 : ℚ) ≥ (Clock.mk 0 1).to_seconds) = True := by
      simp [Clock.to_seconds]
    simp [load_context, contextRecordOfRow, List.filter, h3, List.mapM, List.mapM.loop]
  · rfl

/-- C2: one-tick control delay of the `Simulator`.  At tick 0 the battery and
grid inputs passed on (held in `next_battery_input` / `next_grid_input`, which
`Simulator.step` hands to `batteryStep` and `gridStep`) are `None`; at every
tick `n + 1` they are exactly the `next_battery_input` / `next_grid_input`
fields of the inverter result produced at tick `n`. -/
theorem C2_one_tick_delay {B P L G I : Type} (c : SimComponents B P L G I)
    (b : B) (p : P) (l : L) (g : G) (i : I) (clock : Clock) (ticks : ℕ → ℤ) :
    (Simulator.trace c (Simulator.init b p l g i clock) ticks 0).next_battery_input = none ∧
    (Simulator.trace c (Simulator.init b p l g i clock) ticks 0).next_grid_input = none ∧
    ∀ n : ℕ,
      (Simulator.trace c (Simulator.init b p l g i clock) ticks (n + 1)).next_battery_input =
        some ((Simulator.step c (Simulator.trace c (Simulator.init b p l g i clock) ticks n)
          (ticks n)).2.inverter.next_battery_input) ∧
      (Simulator.trace c (Simulator.init b p l g i clock) ticks (n + 1)).next_grid_input =
        some ((Simulator.step c (Simulator.trace c (Simulator.init b p l g i clock) ticks n)
          (ticks n)).2.inverter.next_grid_input) := by
  refine ⟨rfl, rfl, fun n => ⟨rfl, rfl⟩⟩

/-- The post-step running minimum of the battery SOC is the `min` of the
previous running minimum and the battery result of this step. -/
theorem step_min_battery_soc {B P L G I : Type} (c : SimComponents B P L G I)
    (s : SimState B P L G I) (t : ℤ) :
    (Simulator.step c s t).1.last_cumulative.min_battery_soc =
      min s.last_cumulative.min_battery_soc ((Simulator.step c s t).2.battery.soc) := rfl

/-- C9: because `min_battery_soc` is initialised to 0 and folded with `min`,
any run whose battery results all report a nonnegative SOC keeps the running
minimum pinned at 0 after every tick — it never reports the actual minimum
SOC observed. -/
theorem C9_min_soc_pinned_at_zero {B P L G I : Type} (c : SimComponents B P L G I)
    (b : B) (p : P) (l : L) (g : G) (i : I) (clock : Clock) (ticks : ℕ → ℤ)
    (h : ∀ k : ℕ, 0 ≤ (Simulator.step c
        (Simulator.trace c (Simulator.init b p l g i clock) ticks k) (ticks k)).2.battery.soc) :
    ∀ n : ℕ, (Simulator.trace c (Simulator.init b p l g i clock) ticks
        (n + 1)).last_cumulative.min_battery_soc = 0 := by
  intro n
  induction n with
  | zero =>
      have h0 := h 0
      simp only [Simulator.trace, step_min_battery_soc]
      have : (Simulator.init b p l g i clock : SimState B P L G I).last_cumulative.min_battery_soc
          = 0 := rfl
      rw [this]
      exact min_eq_left (h 0)
  | succ m ih =>
      show (Simulator.step c (Simulator.trace c (Simulator.init b p l g i clock) ticks (m + 1))
        (ticks (m + 1))).1.last_cumulative.min_battery_soc = 0
      rw [step_min_battery_soc, ih]
      exact min_eq_left (h (m + 1))

/-- C4: boundary cases of the PV-first dispatch policy.  First: when the PV
power converted to AC exactly equals the total load (load plus the inverter's
own parasitic load) and the battery SOC is below the configured maximum, the
surplus is zero, so the CHARGE command carries current 0.  Second: with zero
PV power, the SOC exactly at the configured minimum and a positive total
load, the battery is commanded IDLE at current 0 and the grid input demands
exactly the total load shortfall. -/
theorem C4_pv_first_boundary (v : InverterPVFirst) (ii : InverterStepInput) (t : ℤ)
    (heff : 0 < v.pv_to_ac_efficiency) :
    ((ii.last_power_source_step.power_w * v.pv_to_ac_efficiency =
        ii.last_load_step.power_active_w + v.own_load_w ∧
      ii.last_battery_result.soc < v.max_soc) →
        ((v.step t ii).2.next_battery_input.mode = BatteryStepMode.CHARGE ∧
         (v.step t ii).2.next_battery_input.current_a = 0)) ∧
    ((ii.last_power_source_step.power_w = 0 ∧
      ii.last_battery_result.soc = v.min_soc ∧
      0 < ii.last_load_step.power_active_w + v.own_load_w) →
        ((v.step t ii).2.next_battery_input = ⟨BatteryStepMode.IDLE, 0⟩ ∧
         (v.step t ii).2.next_grid_input =
           ⟨ii.last_load_step.power_active_w + v.own_load_w,
            ii.last_load_step.power_active_w + v.own_load_w⟩)) := by
  constructor
  · rintro ⟨hpv, hsoc⟩
    have hge : ii.last_power_source_step.power_w * v.pv_to_ac_efficiency ≥
        ii.last_load_step.power_active_w + v.own_load_w := le_of_eq hpv.symm
    have hnmax : ¬ (ii.last_battery_result.soc ≥ v.max_soc) := not_le.mpr hsoc
    have hrem : ii.last_power_source_step.power_w -
        (ii.last_load_step.power_active_w + v.own_load_w) / v.pv_to_ac_efficiency = 0 := by
      rw [← hpv]
      field_simp
    simp only [InverterPVFirst.step, if_pos hge, if_neg hnmax, hrem, zero_mul, zero_div]
    exact ⟨trivial, trivial⟩
  · rintro ⟨hpv, hsoc, hload⟩
    have hlt : ¬ (ii.last_power_source_step.power_w * v.pv_to_ac_efficiency ≥
        ii.last_load_step.power_active_w + v.own_load_w) := by
      rw [hpv, zero_mul]
      exact not_le.mpr hload
    have hnmin : ¬ (ii.last_battery_result.soc > v.min_soc) := by
      rw [hsoc]
      exact lt_irrefl _
    simp only [InverterPVFirst.step, if_neg hlt, if_neg hnmin]
    rw [hpv]
    norm_num

/-- The inverter configuration used to exercise `C4_pv_first_boundary`. -/
def pvConfig : InverterPVFirst :=
  { clock := ⟨0, 1⟩, pv_to_ac_efficiency := 1, battery_to_ac_efficiency := 1,
    pv_to_battery_efficiency := 1, min_soc := 0, max_soc := 1, own_load_w := 30 }

/-- A battery result reporting SOC `s`, used to build concrete inverter
inputs. -/
def batResultAtSoc (s : ℚ) : BatteryStepResult :=
  { voltage_v := 48, current_a := 0, soc := s, discharge_capacity_c := 0,
    discharge_energy_j := 0 }

/-- Inverter input with PV power 130 W, load 100 W (total 130 W with the
30 W own load) and SOC 1/2. -/
def pvInputBalanced : InverterStepInput :=
  { last_battery_result := batResultAtSoc (1/2)
    last_power_source_step := ⟨0, 0, 130⟩
    last_load_step := ⟨0, 0, 0, 100⟩ }

/-- Inverter input with zero PV power, load 100 W and SOC 0 (the configured
minimum of `pvConfig`). -/
def pvInputDark : InverterStepInput :=
  { last_battery_result := batResultAtSoc 0
    last_power_source_step := ⟨0, 0, 0⟩
    last_load_step := ⟨0, 0, 0, 100⟩ }

/-- C4 witness: the two boundary cases evaluated on concrete inputs. -/
theorem C4_witness :
    ((pvConfig.step 1 pvInputBalanced).2.next_battery_input.mode = BatteryStepMode.CHARGE ∧
     (pvConfig.step 1 pvInputBalanced).2.next_battery_input.current_a = 0) ∧
    ((pvConfig.step 1 pvInputDark).2.next_battery_input = ⟨BatteryStepMode.IDLE, 0⟩ ∧
     (pvConfig.step 1 pvInputDark).2.next_grid_input = ⟨130, 130⟩) := by
  constructor
  · exact (C4_pv_first_boundary pvConfig pvInputBalanced 1 (by norm_num [pvConfig])).1
      ⟨by norm_num [pvConfig, pvInputBalanced, batResultAtSoc],
       by norm_num [pvConfig, pvInputBalanced, batResultAtSoc]⟩
  · have h := (C4_pv_first_boundary pvConfig pvInputDark 1 (by norm_num [pvConfig])).2
      ⟨by norm_num [pvInputDark], by norm_num [pvConfig, pvInputDark, batResultAtSoc],
       by norm_num [pvConfig, pvInputDark]⟩
    refine ⟨h.1, ?_⟩
    rw [h.2]
    norm_num [pvConfig, pvInputDark]

/-- `pyGet` at a nonnegative index is plain `getD`. -/
theorem pyGet_coe (l : List ℚ) (i : ℕ) : pyGet l (i : ℤ) = l.getD i 0 := by
  rw [pyGet, if_neg (by omega)]
  norm_num

/-- `pyGet` at `k - 1` for `k ≥ 1` is plain `getD` at `k - 1`. -/
theorem pyGet_coe_sub_one (l : List ℚ) (k : ℕ) (hk : 1 ≤ k) :
    pyGet l ((k : ℤ) - 1) = l.getD (k - 1) 0 := by
  rw [pyGet, if_neg (by omega)]
  congr 1
  omega

/-- `pyGet` at `-1` wraps around to the last element. -/
theorem pyGet_neg_one (l : List ℚ) : pyGet l (-1) = l.getD (l.length - 1) 0 := by
  rw [pyGet, if_pos (by omega)]
  congr 1
  omega

/-- Reading the time column through `map Prod.fst`. -/
theorem map_fst_getD (arr : List (ℚ × ℚ)) (i : ℕ) (h : i < arr.length) :
    (arr.map Prod.fst).getD i 0 = (arr.getD i (0, 0)).1 := by
  rw [List.getD_eq_getElem _ _ (by simpa using h), List.getD_eq_getElem _ _ h,
    List.getElem_map]

/-- Reading the value column through `map Prod.snd`. -/
theorem map_snd_getD (arr : List (ℚ × ℚ)) (i : ℕ) (h : i < arr.length) :
    (arr.map Prod.snd).getD i 0 = (arr.getD i (0, 0)).2 := by
  rw [List.getD_eq_getElem _ _ (by simpa using h), List.getD_eq_getElem _ _ h,
    List.getElem_map]

/-- On a strictly time-ordered table the time column is strictly monotone. -/
theorem sorted_getD_lt (arr : List (ℚ × ℚ))
    (hsort : List.Pairwise (fun p q : ℚ × ℚ => p.1 < q.1) arr)
    {i j : ℕ} (hij : i < j) (hj : j < arr.length) :
    (arr.getD i (0, 0)).1 < (arr.getD j (0, 0)).1 := by
  rw [List.getD_eq_getElem _ _ (lt_trans hij hj), List.getD_eq_getElem _ _ hj]
  exact List.pairwise_iff_getElem.mp hsort i j (lt_trans hij hj) hj hij

/-- Monotone consequence: `i ≤ j` gives `≤` on the time column. -/
theorem sorted_getD_le (arr : List (ℚ × ℚ))
    (hsort : List.Pairwise (fun p q : ℚ × ℚ => p.1 < q.1) arr)
    {i j : ℕ} (hij : i ≤ j) (hj : j < arr.length) :
    (arr.getD i (0, 0)).1 ≤ (arr.getD j (0, 0)).1 := by
  rcases lt_or_eq_of_le hij with h | h
  · exact le_of_lt (sorted_getD_lt arr hsort h hj)
  · rw [h]

/-- Characterisation of `searchsorted`: it returns `k` when the element at
`k` is the first one `≥ ts`. -/
theorem searchsorted_eq_of (times : List ℚ) (ts : ℚ) (k : ℕ) (hk : k < times.length)
    (hp : ts ≤ times.getD k 0) (hlt : ∀ j, j < k → times.getD j 0 < ts) :
    searchsorted times ts = k := by
  rw [searchsorted, List.findIdx_eq hk]
  refine ⟨decide_eq_true (by rwa [List.getD_eq_getElem _ _ hk] at hp), ?_⟩
  intro j hj
  refine decide_eq_false (not_le.mpr ?_)
  have := hlt j hj
  rwa [List.getD_eq_getElem _ _ (lt_trans hj hk)] at this

/-- `interpolate_value` fails (out-of-range) when the query timestamp lies
beyond the last sample. -/
theorem interpolate_value_beyond (arr : List (ℚ × ℚ)) (hne : arr ≠ []) (ts : ℚ)
    (hts : (arr.getLast hne).1 < ts) :
    interpolate_value arr ts = none := by
  have hlast : pyGet (arr.map Prod.fst) (-1) = (arr.getLast hne).1 := by
    rw [pyGet_neg_one, List.length_map,
      map_fst_getD _ _ (by have := List.length_pos.mpr hne; omega),
      List.getLast_eq_getElem,
      List.getD_eq_getElem _ _ (by have := List.length_pos.mpr hne; omega)]
  rw [interpolate_value]
  simp only [hlast, if_pos hts]

/-- `interpolate_value` on a bracketed (non-matching) query timestamp:
linear interpolation between the bracketing samples. -/
theorem interpolate_value_bracket (arr : List (ℚ × ℚ))
    (hsort : List.Pairwise (fun p q : ℚ × ℚ => p.1 < q.1) arr)
    (ts : ℚ) {i : ℕ} (hi : i + 1 < arr.length)
    (h0 : (arr.getD i (0, 0)).1 < ts) (h1 : ts < (arr.getD (i + 1) (0, 0)).1) :
    interpolate_value arr ts = some ((arr.getD i (0, 0)).2 +
      (ts - (arr.getD i (0, 0)).1) /
        ((arr.getD (i + 1) (0, 0)).1 - (arr.getD i (0, 0)).1) *
        ((arr.getD (i + 1) (0, 0)).2 - (arr.getD i (0, 0)).2)) := by
  have hlen : 0 < arr.length := by omega
  have hlast : ts < (arr.getD (arr.length - 1) (0, 0)).1 :=
    lt_of_lt_of_le h1 (sorted_getD_le arr hsort (by omega) (by omega))
  have hbeyond : ¬ (pyGet (arr.map Prod.fst) (-1) < ts) := by
    rw [pyGet_neg_one, List.length_map, map_fst_getD _ _ (by omega)]
    exact not_lt.mpr (le_of_lt hlast)
  have hidx : searchsorted (arr.map Prod.fst) ts = i + 1 := by
    refine searchsorted_eq_of _ _ (i + 1) (by simpa using hi) ?_ ?_
    · rw [map_fst_getD _ _ hi]
      exact le_of_lt h1
    · intro j hj
      rw [map_fst_getD _ _ (by omega)]
      exact lt_of_le_of_lt (sorted_getD_le arr hsort (by omega) (by omega)) h0
  have hmatch : pyGet (arr.map Prod.fst) (((i + 1 : ℕ) : ℤ) - 1) ≠ ts := by
    rw [pyGet_coe_sub_one _ _ (by omega), Nat.add_sub_cancel, map_fst_getD _ _ (by omega)]
    exact ne_of_lt h0
  rw [interpolate_value]
  simp only [hidx, if_neg hbeyond, if_neg hmatch]
  rw [pyGet_coe_sub_one _ _ (by omega), pyGet_coe_sub_one _ _ (by omega), pyGet_coe, pyGet_coe,
    Nat.add_sub_cancel, map_fst_getD _ _ (by omega), map_fst_getD _ _ hi,
    map_snd_getD _ _ (by omega), map_snd_getD _ _ hi]

/-- `interpolate_value` at a timestamp that exactly matches a sample returns
that sample's value. -/
theorem interpolate_value_exact (arr : List (ℚ × ℚ))
    (hsort : List.Pairwise (fun p q : ℚ × ℚ => p.1 < q.1) arr)
    {i : ℕ} (hi : i < arr.length) :
    interpolate_value arr ((arr.getD i (0, 0)).1) = some ((arr.getD i (0, 0)).2) := by
  have hlen : 0 < arr.length := by omega
  have hle : (arr.getD i (0, 0)).1 ≤ (arr.getD (arr.length - 1) (0, 0)).1 :=
    sorted_getD_le arr hsort (by omega) (by omega)
  have hbeyond : ¬ (pyGet (arr.map Prod.fst) (-1) < (arr.getD i (0, 0)).1) := by
    rw [pyGet_neg_one, List.length_map, map_fst_getD _ _ (by omega)]
    exact not_lt.mpr hle
  have hidx : searchsorted (arr.map Prod.fst) ((arr.getD i (0, 0)).1) = i := by
    refine searchsorted_eq_of _ _ i (by simpa using hi) ?_ ?_
    · rw [map_fst_getD _ _ hi]
    · intro j hj
      rw [map_fst_getD _ _ (by omega)]
      exact sorted_getD_lt arr hsort hj hi
  rcases Nat.eq_zero_or_pos i with hz | hpos
  · subst hz
    rcases Nat.lt_or_ge 1 arr.length with h2 | h1
    · have hmatch : pyGet (arr.map Prod.fst) (((0 : ℕ) : ℤ) - 1) ≠ (arr.getD 0 (0, 0)).1 := by
        rw [show (((0 : ℕ) : ℤ) - 1) = -1 by norm_num, pyGet_neg_one, List.length_map,
          map_fst_getD _ _ (by omega)]
        exact ne_of_gt (sorted_getD_lt arr hsort (by omega) (by omega))
      rw [interpolate_value]
      simp only [hidx, if_neg hbeyond, if_neg hmatch]
      rw [show (((0 : ℕ) : ℤ) - 1) = -1 by norm_num, pyGet_neg_one, pyGet_neg_one, pyGet_coe,
        pyGet_coe, List.length_map, List.length_map, map_fst_getD _ _ (by omega),
        map_fst_getD _ _ hi, map_snd_getD _ _ (by omega), map_snd_getD _ _ hi]
      have hd : (arr.getD 0 (0, 0)).1 - (arr.getD (arr.length - 1) (0, 0)).1 ≠ 0 :=
        sub_ne_zero.mpr (ne_of_lt (sorted_getD_lt arr hsort (by omega) (by omega)))
      rw [div_self hd]
      ring_nf
    · have hone : arr.length = 1 := by omega
      have hmatch : pyGet (arr.map Prod.fst) (((0 : ℕ) : ℤ) - 1) = (arr.getD 0 (0, 0)).1 := by
        rw [show (((0 : ℕ) : ℤ) - 1) = -1 by norm_num, pyGet_neg_one, List.length_map, hone]
        exact map_fst_getD _ _ (by omega)
      rw [interpolate_value]
      simp only [hidx, if_neg hbeyond, if_pos hmatch]
      rw [show (((0 : ℕ) : ℤ) - 1) = -1 by norm_num, pyGet_neg_one, List.length_map, hone]
      rw [map_snd_getD _ _ (by omega)]
  · have hmatch : pyGet (arr.map Prod.fst) ((i : ℤ) - 1) ≠ (arr.getD i (0, 0)).1 := by
      rw [pyGet_coe_sub_one _ _ hpos, map_fst_getD _ _ (by omega)]
      exact ne_of_lt (sorted_getD_lt arr hsort (by omega) hi)
    rw [interpolate_value]
    simp only [hidx, if_neg hbeyond, if_neg hmatch]
    rw [pyGet_coe_sub_one _ _ hpos, pyGet_coe_sub_one _ _ hpos, pyGet_coe, pyGet_coe,
      map_fst_getD _ _ (by omega), map_fst_getD _ _ hi,
      map_snd_getD _ _ (by omega), map_snd_getD _ _ hi]
    have hd : (arr.getD i (0, 0)).1 - (arr.getD (i - 1) (0, 0)).1 ≠ 0 :=
      sub_ne_zero.mpr (ne_of_gt (sorted_getD_lt arr hsort (by omega) hi))
    rw [div_self hd]
    ring_nf

/-- C3: behaviour of `interpolate_value` on a strictly time-ordered non-empty
sample table: a query beyond the last sample fails; a query exactly matching
a sample's timestamp returns that sample's value; a query strictly between
two consecutive samples returns the linear interpolation
`v0 + (ts - t0) / (t1 - t0) * (v1 - v0)`; and on the table
`[(0, 0), (10, 10)]` the queries at 5, 0 and 11 give `5`, `0` and an
out-of-range failure respectively. -/
theorem C3_interpolate (arr : List (ℚ × ℚ)) (hne : arr ≠ [])
    (hsort : List.Pairwise (fun p q : ℚ × ℚ => p.1 < q.1) arr) :
    (∀ ts : ℚ, (arr.getLast hne).1 < ts → interpolate_value arr ts = none) ∧
    (∀ i : ℕ, i < arr.length →
      interpolate_value arr ((arr.getD i (0, 0)).1) = some ((arr.getD i (0, 0)).2)) ∧
    (∀ ts : ℚ, ∀ i : ℕ, i + 1 < arr.length →
      (arr.getD i (0, 0)).1 < ts → ts < (arr.getD (i + 1) (0, 0)).1 →
      interpolate_value arr ts = some ((arr.getD i (0, 0)).2 +
        (ts - (arr.getD i (0, 0)).1) /
          ((arr.getD (i + 1) (0, 0)).1 - (arr.getD i (0, 0)).1) *
          ((arr.getD (i + 1) (0, 0)).2 - (arr.getD i (0, 0)).2))) ∧
    interpolate_value [(0, 0), (10, 10)] 5 = some 5 ∧
    interpolate_value [(0, 0), (10, 10)] 0 = some 0 ∧
    interpolate_value [(0, 0), (10, 10)] 11 = none := by
  refine ⟨fun ts h => interpolate_value_beyond arr hne ts h,
          fun i hi => interpolate_value_exact arr hsort hi,
          fun ts i hi h0 h1 => interpolate_value_bracket arr hsort ts hi h0 h1, ?_, ?_, ?_⟩
  · have h := interpolate_value_bracket (i := 0) [(0, 0), (10, 10)]
      (by norm_num [List.pairwise_cons]) 5 (by norm_num)
      (by norm_num [List.getD_cons_zero])
      (by norm_num [List.getD_cons_succ, List.getD_cons_zero])
    rw [h]
    norm_num [List.getD_cons_succ, List.getD_cons_zero]
  · have h := interpolate_value_exact (i := 0) [(0, 0), (10, 10)]
      (by norm_num [List.pairwise_cons]) (by norm_num)
    simpa [List.getD_cons_zero] using h
  · refine interpolate_value_beyond [(0, 0), (10, 10)] (List.cons_ne_nil _ _) 11 ?_
    have hl : (([((0 : ℚ), (0 : ℚ)), (10, 10)].getLast (List.cons_ne_nil _ _)).1) = 10 := rfl
    rw [hl]
    norm_num

/-- C3 witness: the general theorem applied to the concrete table
`[(0, 0), (10, 10)]`. -/
theorem C3_witness :
    interpolate_value [((0 : ℚ), (0 : ℚ)), (10, 10)] 5 = some 5 ∧
    interpolate_value [((0 : ℚ), (0 : ℚ)), (10, 10)] 11 = none :=
  ⟨(C3_interpolate [(0, 0), (10, 10)] (List.cons_ne_nil _ _)
      (by norm_num [List.pairwise_cons])).2.2.2.1,
   (C3_interpolate [(0, 0), (10, 10)] (List.cons_ne_nil _ _)
      (by norm_num [List.pairwise_cons])).2.2.2.2.2⟩

/-- C10: a query timestamp strictly before the first sample of a table with
at least two strictly increasing samples does not fail: through the
wrapped-around `-1` index, `interpolate_value` returns
`v_last + (ts - t_last) / (t_first - t_last) * (v_first - v_last)`, a value
blended from the last and the first sample. -/
theorem C10_before_first (arr : List (ℚ × ℚ))
    (hsort : List.Pairwise (fun p q : ℚ × ℚ => p.1 < q.1) arr)
    (h2 : 2 ≤ arr.length) (ts : ℚ) (hts : ts < (arr.getD 0 (0, 0)).1) :
    interpolate_value arr ts = some ((arr.getD (arr.length - 1) (0, 0)).2 +
      (ts - (arr.getD (arr.length - 1) (0, 0)).1) /
        ((arr.getD 0 (0, 0)).1 - (arr.getD (arr.length - 1) (0, 0)).1) *
        ((arr.getD 0 (0, 0)).2 - (arr.getD (arr.length - 1) (0, 0)).2)) := by
  have hfl : (arr.getD 0 (0, 0)).1 < (arr.getD (arr.length - 1) (0, 0)).1 :=
    sorted_getD_lt arr hsort (by omega) (by omega)
  have hbeyond : ¬ (pyGet (arr.map Prod.fst) (-1) < ts) := by
    rw [pyGet_neg_one, List.length_map, map_fst_getD _ _ (by omega)]
    exact not_lt.mpr (le_of_lt (lt_trans hts hfl))
  have hidx : searchsorted (arr.map Prod.fst) ts = 0 := by
    refine searchsorted_eq_of _ _ 0 (by simp; omega) ?_ (fun j hj => absurd hj (Nat.not_lt_zero j))
    rw [map_fst_getD _ _ (by omega)]
    exact le_of_lt hts
  have hmatch : pyGet (arr.map Prod.fst) (((0 : ℕ) : ℤ) - 1) ≠ ts := by
    rw [show (((0 : ℕ) : ℤ) - 1) = -1 by norm_num, pyGet_neg_one, List.length_map,
      map_fst_getD _ _ (by omega)]
    exact ne_of_gt (lt_trans hts hfl)
  rw [interpolate_value]
  simp only [hidx, if_neg hbeyond, if_neg hmatch]
  rw [show (((0 : ℕ) : ℤ) - 1) = -1 by norm_num, pyGet_neg_one, pyGet_neg_one, pyGet_coe,
    pyGet_coe, List.length_map, List.length_map, map_fst_getD _ _ (by omega),
    map_fst_getD _ _ (by omega), map_snd_getD _ _ (by omega), map_snd_getD _ _ (by omega)]

/-- C10 witness: on `[(0, 0), (10, 10)]` the query at `-5` succeeds and
returns `10 + (-5 - 10) / (0 - 10) * (0 - 10) = -5`. -/
theorem C10_witness :
    interpolate_value [((0 : ℚ), (0 : ℚ)), (10, 10)] (-5) = some (-5) := by
  have h := C10_before_first [(0, 0), (10, 10)] (by norm_num [List.pairwise_cons])
    (by norm_num) (-5) (by norm_num [List.getD_cons_zero])
  rw [h]
  norm_num [List.getD_cons_succ, List.getD_cons_zero]

/-- Scanning the reversed schedule for the first entry at-or-before `now`
finds, on an ascending-sorted schedule, the entry with the latest time
at-or-before `now` (and finds nothing exactly when no entry qualifies). -/
theorem find_reverse_latest (sched : List (ℚ × ℚ)) (now : ℚ)
    (hs : List.Pairwise (fun p q : ℚ × ℚ => p.1 ≤ q.1) sched) :
    (∃ e, sched.reverse.find? (fun p => p.1 ≤ now) = some e ∧ e ∈ sched ∧ e.1 ≤ now ∧
        ∀ f ∈ sched, f.1 ≤ now → f.1 ≤ e.1) ∨
    (sched.reverse.find? (fun p => p.1 ≤ now) = none ∧ ∀ f ∈ sched, ¬ (f.1 ≤ now)) := by
  induction sched using List.reverseRecOn with
  | nil => exact Or.inr ⟨rfl, by simp⟩
  | append_singleton l a ih =>
      rw [List.pairwise_append] at hs
      obtain ⟨hl, -, hbound⟩ := hs
      rw [List.reverse_append, List.reverse_singleton, List.singleton_append, List.find?_cons]
      by_cases ha : a.1 ≤ now
      · rw [decide_eq_true ha]
        refine Or.inl ⟨a, rfl, by simp, ha, ?_⟩
        intro f hf _
        rcases List.mem_append.mp hf with hf | hf
        · exact hbound f hf a (by simp)
        · simp only [List.mem_singleton] at hf
          rw [hf]
      · rw [decide_eq_false ha]
        rcases ih hl with ⟨e, hfind, hmem, hle, hmax⟩ | ⟨hfind, hnone⟩
        · refine Or.inl ⟨e, hfind, List.mem_append.mpr (Or.inl hmem), hle, ?_⟩
          intro f hf hfle
          rcases List.mem_append.mp hf with hf | hf
          · exact hmax f hf hfle
          · simp only [List.mem_singleton] at hf
            rw [hf] at hfle
            exact absurd hfle ha
        · refine Or.inr ⟨hfind, ?_⟩
          intro f hf
          rcases List.mem_append.mp hf with hf | hf
          · exact hnone f hf
          · simp only [List.mem_singleton] at hf
            rw [hf]
            exact ha

/-- C5: `GridPriced.step` with an ascending-sorted price schedule.  The price
is the schedule entry with the latest time at-or-before the step's starting
time (0 when no entry qualifies); delivered apparent/active power equal the
demands; the cost is `demand_active * hours / 1000 * price`; the violation
flag holds exactly when a demand exceeds its configured maximum; and a `None`
input yields zero delivery, zero cost and no violation. -/
theorem C5_grid_priced (g : GridPriced) (t : ℤ) (gi : Option GridStepInput)
    (hs : List.Pairwise (fun p q : ℚ × ℚ => p.1 ≤ q.1) g.price_schedule) :
    ∃ price : ℚ,
      ((∃ e ∈ g.price_schedule, e.1 ≤ g.clock.to_seconds ∧ price = e.2 ∧
          ∀ f ∈ g.price_schedule, f.1 ≤ g.clock.to_seconds → f.1 ≤ e.1) ∨
        (price = 0 ∧ ∀ f ∈ g.price_schedule, ¬ (f.1 ≤ g.clock.to_seconds))) ∧
      (∀ x, gi = some x →
        (g.step t gi).2.power_delivered_apparent_va = x.power_demand_apparent_va ∧
        (g.step t gi).2.power_delivered_active_w = x.power_demand_active_w ∧
        (g.step t gi).2.cost =
          x.power_demand_active_w * ((t : ℚ) / (g.clock.RES : ℚ) / (60 * 60)) / 1000 * price ∧
        ((g.step t gi).2.violation = true ↔
          (x.power_demand_active_w > g.max_power_active_w ∨
           x.power_demand_apparent_va > g.max_power_apparent_va))) ∧
      (gi = none →
        (g.step t gi).2.power_delivered_apparent_va = 0 ∧
        (g.step t gi).2.power_delivered_active_w = 0 ∧
        (g.step t gi).2.cost = 0 ∧
        (g.step t gi).2.violation = false) := by
  have hhours : (Clock.difference_hours g.clock (g.clock.advance t)).getD 0 =
      (t : ℚ) / (g.clock.RES : ℚ) / (60 * 60) := by
    rw [Clock.difference_hours, Clock.advance, if_pos rfl, Option.getD_some]
    push_cast
    ring
  rcases find_reverse_latest g.price_schedule g.clock.to_seconds hs with
    ⟨e, hfind, hmem, hle, hmax⟩ | ⟨hfind, hnone⟩
  · refine ⟨e.2, Or.inl ⟨e, hmem, hle, rfl, hmax⟩, ?_, ?_⟩
    · rintro x rfl
      simp only [GridPriced.step, hfind, hhours, Option.getD_some]
      refine ⟨trivial, trivial, trivial, ?_⟩
      exact decide_eq_true_iff
    · rintro rfl
      simp only [GridPriced.step]
      exact ⟨trivial, trivial, trivial, trivial⟩
  · refine ⟨0, Or.inr ⟨rfl, hnone⟩, ?_, ?_⟩
    · rintro x rfl
      simp only [GridPriced.step, hfind, hhours, Option.getD_none]
      refine ⟨trivial, trivial, trivial, ?_⟩
      exact decide_eq_true_iff
    · rintro rfl
      simp only [GridPriced.step]
      exact ⟨trivial, trivial, trivial, trivial⟩

/-- The grid configuration used to exercise `C5_grid_priced`: prices 2 from
time 0 and 4 from time 3600, clock at 7200 s, both maxima 100. -/
def gridConfig : GridPriced :=
  { clock := ⟨7200, 1⟩, price_schedule := [(0, 2), (3600, 4)],
    max_power_apparent_va := 100, max_power_active_w := 100 }

/-- C5 witness: the theorem applied to `gridConfig`, a one-hour step and the
demand (50 VA, 60 W). -/
theorem C5_witness :
    ∃ price : ℚ,
      ((∃ e ∈ gridConfig.price_schedule, e.1 ≤ gridConfig.clock.to_seconds ∧ price = e.2 ∧
          ∀ f ∈ gridConfig.price_schedule, f.1 ≤ gridConfig.clock.to_seconds → f.1 ≤ e.1) ∨
        (price = 0 ∧ ∀ f ∈ gridConfig.price_schedule, ¬ (f.1 ≤ gridConfig.clock.to_seconds))) ∧
      (∀ x, (some (GridStepInput.mk 50 60) : Option GridStepInput) = some x →
        (gridConfig.step 3600 (some ⟨50, 60⟩)).2.power_delivered_apparent_va =
          x.power_demand_apparent_va ∧
        (gridConfig.step 3600 (some ⟨50, 60⟩)).2.power_delivered_active_w =
          x.power_demand_active_w ∧
        (gridConfig.step 3600 (some ⟨50, 60⟩)).2.cost =
          x.power_demand_active_w *
            ((3600 : ℚ) / (gridConfig.clock.RES : ℚ) / (60 * 60)) / 1000 * price ∧
        ((gridConfig.step 3600 (some ⟨50, 60⟩)).2.violation = true ↔
          (x.power_demand_active_w > gridConfig.max_power_active_w ∨
           x.power_demand_apparent_va > gridConfig.max_power_apparent_va))) ∧
      ((some (GridStepInput.mk 50 60) : Option GridStepInput) = none →
        (gridConfig.step 3600 (some ⟨50, 60⟩)).2.power_delivered_apparent_va = 0 ∧
        (gridConfig.step 3600 (some ⟨50, 60⟩)).2.power_delivered_active_w = 0 ∧
        (gridConfig.step 3600 (some ⟨50, 60⟩)).2.cost = 0 ∧
        (gridConfig.step 3600 (some ⟨50, 60⟩)).2.violation = false) :=
  C5_grid_priced gridConfig 3600 (some ⟨50, 60⟩)
    (by norm_num [gridConfig, List.pairwise_cons])

/-- Constant components over trivial (`Unit`) states, used to instantiate the
simulator theorems on a concrete run. -/
def constComponents : SimComponents Unit Unit Unit Unit Unit :=
  { batteryStep := fun _ _ _ =>
      ((), { voltage_v := 1, current_a := 0, soc := 1/2,
             discharge_capacity_c := 0, discharge_energy_j := 0 })
    powerSourceStep := fun _ _ => ((), ⟨0, 0, 0⟩)
    loadStep := fun _ _ => ((), ⟨0, 0, 0, 0⟩)
    gridStep := fun _ _ _ => ((), ⟨0, 0⟩)
    inverterStep := fun _ _ _ =>
      ((), { next_battery_input := ⟨BatteryStepMode.IDLE, 0⟩,
             next_grid_input := ⟨0, 0⟩, generator_power_drawn_w := 0 }) }

/-- C9 witness: on the constant-component run (battery SOC always `1/2`), the
running minimum after 3 ticks is 0. -/
theorem C9_witness :
    (Simulator.trace constComponents (Simulator.init () () () () () ⟨0, 1⟩)
      (fun _ => 1) 3).last_cumulative.min_battery_soc = 0 :=
  C9_min_soc_pinned_at_zero constComponents () () () () () ⟨0, 1⟩ (fun _ => 1)
    (fun _ => by norm_num [Simulator.step, constComponents]) 2

end Opencem
